import Mathlib

/-!
Verification of the bilal_fr_site event pipeline.

The definitions below are a shallow embedding of the Python sources
src/rebuild_events_safe.py, src/fundraiser_analytics.py,
src/make_verified_manifests.py and src/extract_all_events.py.
Strings are modelled over their character lists; Python regular
expression operations are modelled by explicit character scans with the
same semantics on the inputs that occur in the pipeline (ASCII word
characters and whitespace).  HTML traversal done by BeautifulSoup is
abstracted into a Block structure whose fields hold exactly the values
the Python code reads out of the parsed tree; everything downstream of
those reads is translated line by line.
-/

/-- The single-quote character, built by code point so that no literal
apostrophe appears in the file. -/
def sqChar : Char := Char.ofNat 39

/-- The non-breaking-space character U+00A0, replaced by a plain space in
the clean function of both pipeline scripts. -/
def nbspChar : Char := Char.ofNat 160

/-- Python regex whitespace class for ASCII data: space, tab, newline,
carriage return, vertical tab, form feed. -/
def isPySpace (c : Char) : Bool :=
  c = ' ' || c = Char.ofNat 9 || c = Char.ofNat 10 || c = Char.ofNat 13 ||
  c = Char.ofNat 11 || c = Char.ofNat 12

/-- Python regex word class for ASCII data: letters, digits, underscore. -/
def isWordChar (c : Char) : Bool := c.isAlphanum || c = '_'

/-- Replace each whitespace character by a plain space and collapse runs of
consecutive whitespace to a single space: the re.sub of a whitespace run by
one space used by clean, normalize_title and canonical_title. -/
def collapseWS : List Char → List Char
  | [] => []
  | [c] => [if isPySpace c then ' ' else c]
  | c :: d :: rest =>
    if isPySpace c && isPySpace d then collapseWS (d :: rest)
    else (if isPySpace c then ' ' else c) :: collapseWS (d :: rest)

/-- Strip leading and trailing whitespace, as Python str.strip on the ASCII
data of this pipeline. -/
def pystripL (l : List Char) : List Char :=
  ((l.dropWhile isPySpace).reverse.dropWhile isPySpace).reverse

/-- Python str.strip as a String function. -/
def pystrip (s : String) : String := String.mk (pystripL s.toList)

/-- clean(s) from rebuild_events_safe.py and fundraiser_analytics.py:
replace the non-breaking space by a space, collapse whitespace runs to one
space, strip the ends. -/
def clean (s : String) : String :=
  String.mk (pystripL (collapseWS (s.toList.map
    (fun c => if c = nbspChar then ' ' else c))))

/-- Lowercasing as Python str.lower on the ASCII data of this pipeline. -/
def lowerStr (s : String) : String := String.mk (s.toList.map Char.toLower)

/-- First index at which the word w occurs with regex word boundaries on
both sides; prevIsWord records whether the character just before the
current position is a word character. -/
def findWordAux (w : List Char) (prevIsWord : Bool) : List Char → Option Nat
  | [] => none
  | c :: cs =>
    if !prevIsWord && w.isPrefixOf (c :: cs) &&
        (match (c :: cs).drop w.length with
         | [] => true
         | d :: _ => !isWordChar d) then
      some 0
    else
      (findWordAux w (isWordChar c) cs).map (· + 1)

/-- Whether the word w occurs in l with word boundaries: the model of a
word-bounded regex search. -/
def containsWord (w : List Char) (l : List Char) : Bool :=
  (findWordAux w false l).isSome

/-- Whether needle occurs as a contiguous run inside hay. -/
def isInfixB (needle : List Char) : List Char → Bool
  | [] => needle.isEmpty
  | c :: cs => needle.isPrefixOf (c :: cs) || isInfixB needle cs

/-- Substring containment, the model of the Python in operator on str. -/
def strContains (hay needle : String) : Bool :=
  isInfixB needle.toList hay.toList

/-- normalize_title from rebuild_events_safe.py: clean, lowercase, delete
characters that are neither word characters nor whitespace, collapse
whitespace, strip. -/
def normalize_title (t : String) : String :=
  let t1 := (lowerStr (clean t)).toList
  let t2 := t1.filter (fun c => isWordChar c || isPySpace c)
  String.mk (pystripL (collapseWS t2))

/-- normalize_loc from rebuild_events_safe.py: a falsy (absent or empty)
location yields None; otherwise clean it and strip a leading case
insensitive c_ prefix from the cleaned original. -/
def normalize_loc : Option String → Option String
  | none => none
  | some s =>
    if s = "" then none
    else
      let l := clean s
      if (lowerStr l).toList.take 2 = ['c', '_'] then
        some (String.mk (l.toList.drop 2))
      else some l

/-- canonical_title from fundraiser_analytics.py: clean and lowercase,
delete everything from the first word-bounded occurrence of host to the
end of the string and strip, replace non word non space characters by
spaces, collapse whitespace and strip, then apply the fixed typo table. -/
def canonical_title (t : String) : String :=
  let t1 := (lowerStr (clean t)).toList
  let t2 :=
    match findWordAux ['h', 'o', 's', 't'] false t1 with
    | none => t1
    | some i => t1.take i
  let t3 := pystripL t2
  let t4 := t3.map (fun c => if isWordChar c || isPySpace c then c else ' ')
  let t5 := String.mk (pystripL (collapseWS t4))
  if t5 = "arabic scool at bilal" then "arabic school at bilal"
  else if t5 = "arabic scool" then "arabic school"
  else t5

/-- canonical_loc from fundraiser_analytics.py: clean; an empty result
yields the empty string; otherwise strip a leading case insensitive c_
prefix from the cleaned original. -/
def canonical_loc (s : String) : String :=
  let l := clean s
  if l = "" then ""
  else if (lowerStr l).toList.take 2 = ['c', '_'] then
    String.mk (l.toList.drop 2)
  else l

/-- Split a character list at every occurrence of the separator, as the
Python str.split with a one-character separator: splitting the empty
string gives one empty part. -/
def splitChar (sep : Char) : List Char → List (List Char)
  | [] => [[]]
  | c :: cs =>
    let r := splitChar sep cs
    if c = sep then [] :: r
    else
      match r with
      | h :: t => (c :: h) :: t
      | [] => [[c]]

/-- Numeric value of a digit run; none when the run is empty or holds a
non-digit. -/
def digitsVal : List Char → Option Nat
  | [] => none
  | l =>
    if l.all Char.isDigit then
      some (l.foldl (fun a c => 10 * a + (c.toNat - 48)) 0)
    else none

/-- Python int applied to a string: strip whitespace, allow one leading
sign, then a non-empty digit run.  Underscored numeric literals, which
never occur in this pipeline, are not modelled. -/
def pyInt (s : List Char) : Option Int :=
  match pystripL s with
  | '-' :: ds => (digitsVal ds).map (fun n => -(n : Int))
  | '+' :: ds => (digitsVal ds).map (fun n => (n : Int))
  | ds => (digitsVal ds).map (fun n => (n : Int))

/-- Zero padding of a digit run to width w, as the Python format {:0wd}
for a non-negative value. -/
def padZ (w : Nat) (ds : List Char) : List Char :=
  List.replicate (w - ds.length) '0' ++ ds

/-- Python format {n:0wd} for an integer: the minus sign counts toward the
field width. -/
def fmtZ (w : Nat) (n : Int) : String :=
  if n < 0 then String.mk ('-' :: padZ (w - 1) (Nat.toDigits 10 n.natAbs))
  else String.mk (padZ w (Nat.toDigits 10 n.natAbs))

/-- parse_date_str from rebuild_events_safe.py and extract_all_events.py:
split on the slash, require at least three components, convert the first
three with int, and join them zero padded as YYYY-MM-DD.  No calendar
range validation is performed. -/
def parse_date_str (d : String) : Option String :=
  match splitChar '/' d.toList with
  | p1 :: p2 :: p3 :: _ =>
    match pyInt p1, pyInt p2, pyInt p3 with
    | some y, some m, some dd =>
      some (fmtZ 4 y ++ "-" ++ fmtZ 2 m ++ "-" ++ fmtZ 2 dd)
    | _, _, _ => none
  | _ => none

/-- Take the first n characters, as Python string slicing s[:n]. -/
def strTake (s : String) (n : Nat) : String := String.mk (s.toList.take n)

/-!
Grid extraction, rebuild_events_safe.py.

BeautifulSoup locates, inside each div whose class contains the word
CalEvent, a handful of values; the Block structure holds exactly those
values, and everything the script computes from them is translated below.
-/

/-- One CalEvent block as the grid parser of rebuild_events_safe.py sees
it: locClass is the first class name among the nested divs that is none of
CalEvent, EventLink and DayWithEvents; timeText is the text of the nested
TimeLabel span when present; anchorText is the text of the first anchor;
fullText is the whole block text used as title fallback; noscriptQs is the
parsed query string of the noscript link when present; popupCall holds the
date and id literals of the inline PopupWindow call when the regex finds
one. -/
structure Block where
  locClass : Option String
  timeText : Option String
  anchorText : Option String
  fullText : String
  noscriptQs : Option (List (String × String))
  popupCall : Option (String × String)
deriving DecidableEq, Repr

/-- qs.get(k) on the parsed query string: the first binding of the key. -/
def qsGet (qs : List (String × String)) (k : String) : Option String :=
  (qs.find? (fun p => p.1 == k)).map (fun p => p.2)

/-- The title of a block: text of the first anchor, cleaned, falling back
to the cleaned full block text when the anchor is absent or cleans to the
empty string. -/
def block_title (b : Block) : String :=
  match b.anchorText with
  | some a => let t := clean a; if t = "" then clean b.fullText else t
  | none => clean b.fullText

/-- Lines 68 to 86 of rebuild_events_safe.py: event_id and date from the
noscript link query parameters (ID, Date) when the date parses, else from
the inline PopupWindow call, whose id overwrites the noscript id even when
its date fails to parse. -/
def block_id_date (b : Block) : Option String × Option String :=
  let first :=
    match b.noscriptQs with
    | some qs => (qsGet qs "ID", parse_date_str ((qsGet qs "Date").getD ""))
    | none => ((none : Option String), (none : Option String))
  match first.2 with
  | some d => (first.1, some d)
  | none =>
    match b.popupCall with
    | some (ds, ids) => (some ids, parse_date_str ds)
    | none => (first.1, none)

/-- The date a block resolves to, if any. -/
def block_date (b : Block) : Option String := (block_id_date b).2

/-- One row of the raw event frame built by extract_events in
rebuild_events_safe.py. -/
structure Row where
  date : String
  year_month : String
  year : String
  calendar_name : Option String
  title : String
  title_norm : String
  time_label : Option String
  location_code : Option String
  event_id : Option String
  source_type : String
deriving DecidableEq, Repr

/-- The record extract_events appends for one block, or none when the
title or the date is missing (the continue at line 89). -/
def extract_row (cal : Option String) (st : String) (b : Block) :
    Option Row :=
  match block_id_date b with
  | (_, none) => none
  | (event_id, some date) =>
    let title := block_title b
    if title = "" then none
    else
      some
        { date := date
          year_month := strTake date 7
          year := strTake date 4
          calendar_name := cal
          title := title
          title_norm := normalize_title title
          time_label := b.timeText.map clean
          location_code := normalize_loc b.locClass
          event_id := event_id
          source_type := st }

/-- extract_events over one document: the rows of its blocks in order. -/
def extract_events (cal : Option String) (st : String) (bs : List Block) :
    List Row :=
  bs.filterMap (extract_row cal st)

/-- One manifest entry as parse_manifest sees it: the CalendarName query
parameter of the original URL and the CalEvent blocks of the stored
document. -/
structure MFile where
  calendar_name : Option String
  blocks : List Block
deriving DecidableEq, Repr

/-- parse_manifest from rebuild_events_safe.py: extract every entry of the
manifest with the given source type stamp and concatenate the rows. -/
def parse_manifest (entries : List MFile) (st : String) : List Row :=
  entries.foldr (fun e acc => extract_events e.calendar_name st e.blocks ++ acc) []

/-- The month frame after the BilalEvents calendar filter (lines 117 and
120). -/
def df_month_of (mm : List MFile) : List Row :=
  (parse_manifest mm "month_block").filter
    (fun r => r.calendar_name = some "BilalEvents")

/-- The year_month values present in the month frame (line 122). -/
def month_months (mm : List MFile) : List String :=
  (df_month_of mm).map (fun r => r.year_month)

/-- The day frame after the calendar filter and the coverage gate: only
rows whose year_month is absent from the month frame survive (lines 125
to 128). -/
def df_day_missing_of (mm dm : List MFile) : List Row :=
  ((parse_manifest dm "day_block").filter
      (fun r => r.calendar_name = some "BilalEvents")).filter
    (fun r => ¬ (r.year_month ∈ month_months mm))

/-- source_rank (line 139): month_block to 0, day_block to 1, anything
else to the fillna value 9. -/
def source_rank (r : Row) : Nat :=
  if r.source_type = "month_block" then 0
  else if r.source_type = "day_block" then 1
  else 9

/-- has_event_id (line 135). -/
def has_event_id (r : Row) : Nat := if r.event_id.isSome then 1 else 0

/-- has_location (line 136). -/
def has_location (r : Row) : Nat := if r.location_code.isSome then 1 else 0

/-- Lexicographic order on character lists by code point, the order
Python uses to compare strings. -/
def listLtB : List Char → List Char → Bool
  | [], [] => false
  | [], _ :: _ => true
  | _ :: _, [] => false
  | c :: cs, d :: ds => if c < d then true else if d < c then false else listLtB cs ds

/-- Strict string order by code point, as Python string comparison. -/
def strLtB (a b : String) : Bool := listLtB a.toList b.toList

/-- The composite sort order of line 141: ascending date, ascending
title_norm, ascending source_rank, descending has_event_id, descending
has_location.  Ties compare as true, so the stable insertion sort below
keeps their input order. -/
def rowLe (a b : Row) : Bool :=
  if a.date ≠ b.date then strLtB a.date b.date
  else if a.title_norm ≠ b.title_norm then strLtB a.title_norm b.title_norm
  else if source_rank a ≠ source_rank b then decide (source_rank a < source_rank b)
  else if has_event_id a ≠ has_event_id b then decide (has_event_id b < has_event_id a)
  else if has_location a ≠ has_location b then decide (has_location b < has_location a)
  else true

/-- Insert x before the first element y with le x y. -/
def insertBy {α : Type} (le : α → α → Bool) (x : α) : List α → List α
  | [] => [x]
  | y :: ys => if le x y then x :: y :: ys else y :: insertBy le x ys

/-- Stable insertion sort.  pandas sort_values leaves the relative order
of fully tied rows unspecified; this embedding fixes the stable order,
which no claim depends on. -/
def isortBy {α : Type} (le : α → α → Bool) : List α → List α
  | [] => []
  | x :: xs => insertBy le x (isortBy le xs)

/-- drop_duplicates keep first on the key: keep a row only when its key
was not seen earlier. -/
def dedupAux {α κ : Type} [DecidableEq κ] (key : α → κ) (seen : List κ) :
    List α → List α
  | [] => []
  | x :: xs =>
    if key x ∈ seen then dedupAux key seen xs
    else x :: dedupAux key (key x :: seen) xs

/-- pandas drop_duplicates with keep first over the given key. -/
def drop_duplicates {α κ : Type} [DecidableEq κ] (key : α → κ)
    (l : List α) : List α :=
  dedupAux key [] l

/-- Lines 141 to 149 of rebuild_events_safe.py: sort by the composite
rank, dedupe the rows that carry an event_id by (date, event_id), dedupe
the rows without one by (date, title_norm), and concatenate. -/
def dedupe (rows : List Row) : List Row :=
  let sorted := isortBy rowLe rows
  let df_with_id := drop_duplicates (fun r => (r.date, r.event_id))
    (sorted.filter (fun r => r.event_id.isSome))
  let df_no_id := drop_duplicates (fun r => (r.date, r.title_norm))
    (sorted.filter (fun r => r.event_id.isNone))
  df_with_id ++ df_no_id

/-- The whole reconciliation of rebuild_events_safe.py: parse both
manifests, filter to the BilalEvents calendar, gate the day rows on month
coverage, and dedupe. -/
def rebuild (mm dm : List MFile) : List Row :=
  dedupe (df_month_of mm ++ df_day_missing_of mm dm)

/-!
Analytics stage, fundraiser_analytics.py.

The script reads events_master_clean.csv, the persisted form of the
rebuild output.  A pandas CSV round trip turns an absent optional field
into the float NaN, and a subsequent astype(str) or clean renders it as
the string nan; cellStr below reproduces that boundary.
-/

/-- One row of events_master_clean.csv as the analytics script reads it:
the columns it actually uses.  date and title are never absent in the
rebuild output; time_label and location_code may be. -/
structure CsvRow where
  date : String
  title : String
  time_label : Option String
  location_code : Option String
deriving DecidableEq, Repr

/-- The CSV round trip from a rebuild row to the columns the analytics
script consumes. -/
def toCsvRow (r : Row) : CsvRow :=
  { date := r.date
    title := r.title
    time_label := r.time_label
    location_code := r.location_code }

/-- astype(str) on a CSV cell: an absent value became NaN on read and
renders as the string nan. -/
def cellStr : Option String → String
  | some s => s
  | none => "nan"

/-- A prepared analytics row: the derived columns of fundraiser_analytics
main after the year filter, title canonicalization, location and time
normalization and event key construction. -/
structure ERow where
  date : String
  year_int : Nat
  year_month : String
  title_canonical : String
  location_code : String
  time_label : String
  event_key : String
deriving DecidableEq, Repr

/-- Whether the first four characters of the date are exactly four digits:
the regex filter of line 99. -/
def yearOkB (date : String) : Bool :=
  (date.toList.take 4).length = 4 && (date.toList.take 4).all Char.isDigit

/-- Numeric value of a digit run, used for the year cast of line 100. -/
def digitsToNat (l : List Char) : Nat :=
  l.foldl (fun a c => 10 * a + (c.toNat - 48)) 0

/-- make_event_key of fundraiser_analytics.py: clean date, cleaned and
lowercased canonical title, cleaned and lowercased time label, joined
with double bars. -/
def make_event_key (date tc tl : String) : String :=
  clean date ++ "||" ++ lowerStr (clean tc) ++ "||" ++ lowerStr (clean tl)

/-- Lines 91 to 126 of fundraiser_analytics.py for one CSV row: clean the
date, drop the row unless its first four characters are digits, derive
year_int and year_month, canonicalize the title from the title column
(the rebuild CSV has no title_canonical column), drop the row when the
canonical title is empty, normalize the location cell with canonical_loc,
clean the time label cell, and build the event key. -/
def prepRow (c : CsvRow) : Option ERow :=
  let date := clean c.date
  if yearOkB date then
    let tc := canonical_title (clean c.title)
    if tc = "" then none
    else
      let loc := canonical_loc (cellStr c.location_code)
      let tl := clean (cellStr c.time_label)
      some
        { date := date
          year_int := digitsToNat (date.toList.take 4)
          year_month := strTake date 7
          title_canonical := tc
          location_code := loc
          time_label := tl
          event_key := make_event_key date tc tl }
  else none

/-- The prepared analytics frame. -/
def analyticsRows (input : List CsvRow) : List ERow :=
  input.filterMap prepRow

/-- events_unique (line 130): first row per event_key. -/
def events_unique (input : List CsvRow) : List ERow :=
  drop_duplicates (fun r => r.event_key) (analyticsRows input)

/-- venue_bookings (lines 133 to 137): rows with a non-empty location,
first row per (event_key, location_code). -/
def venue_bookings (input : List CsvRow) : List ERow :=
  drop_duplicates (fun r => (r.event_key, r.location_code))
    ((analyticsRows input).filter (fun r => r.location_code ≠ ""))

/-- Ascending order on naturals for the groupby key sort. -/
def natLe (a b : Nat) : Bool := a ≤ b

/-- The sorted distinct years of the unique event frame: the groupby keys
of the yearly summary (lines 140 to 150). -/
def yearsOf (rows : List ERow) : List Nat :=
  isortBy natLe (drop_duplicates (fun y => y) (rows.map (fun r => r.year_int)))

/-- The yearly event counts of the unique event frame, in ascending year
order: the events column of the yearly summary. -/
def yearly_event_counts (input : List CsvRow) : List Nat :=
  (yearsOf (events_unique input)).map
    (fun y => ((events_unique input).filter (fun r => r.year_int = y)).length)

/-- pct_change of fundraiser_analytics.py over exact rationals (the
script computes in floating point; this embedding idealizes the
arithmetic as exact): none when the previous value is zero. -/
def pct_change (cur prev : ℚ) : Option ℚ :=
  if prev = 0 then none else some (100 * (cur - prev) / prev)

/-- Python round to one decimal place over exact rationals: ties round to
the even multiple of one tenth. -/
def pyRound1 (q : ℚ) : ℚ :=
  let t := (10 : ℚ) * q
  let f := ⌊t⌋
  let i : ℤ :=
    if t - f < 1 / 2 then f
    else if (1 : ℚ) / 2 < t - f then f + 1
    else if f % 2 = 0 then f else f + 1
  (i : ℚ) / 10

/-- The growth column construction of lines 155 to 159: the previous
value is the shifted events column, an absent previous value yields null,
and otherwise round is applied to pct_change.  When pct_change returns
None because the previous value is zero, round(None, 1) raises a
TypeError; the whole column computation is therefore an Option, with none
standing for that exception. -/
def growthGo : Option ℚ → List ℚ → Option (List (Option ℚ))
  | _, [] => some []
  | none, c :: cs => (growthGo (some c) cs).map (fun t => none :: t)
  | some p, c :: cs =>
    match pct_change c p with
    | none => none
    | some v => (growthGo (some c) cs).map (fun t => some (pyRound1 v) :: t)

/-- The growth_pct column over the yearly events column. -/
def growth_pct_col (events : List ℚ) : Option (List (Option ℚ)) :=
  growthGo none events

/-- The growth column the claim describes: null for the first year, then
the rounded percent change from the previous count. -/
def growthExpectedGo : ℚ → List ℚ → List (Option ℚ)
  | _, [] => []
  | p, c :: cs => some (pyRound1 (100 * (c - p) / p)) :: growthExpectedGo c cs

/-- Expected growth column: empty for no years, else null then the rounded
formula entries. -/
def growthExpected : List ℚ → List (Option ℚ)
  | [] => []
  | c :: cs => none :: growthExpectedGo c cs

/-!
Manifest partitioner, make_verified_manifests.py.
-/

/-- A one-character string holding the single quote. -/
def sqStr : String := String.mk [sqChar]

/-- The single-quoted calblock marker class= followed by calblock in
single quotes. -/
def calblockSq : String := "class=" ++ sqStr ++ "calblock" ++ sqStr

/-- The single-quoted blockview marker. -/
def blockviewSq : String := "class=" ++ sqStr ++ "blockview" ++ sqStr

/-- classify_html from make_verified_manifests.py: case insensitive
substring checks over the document, in source order. -/
def classify_html (html : String) : String :=
  let low := lowerStr html
  if strContains low "class=\"eventpopup\"" || strContains low "id=\"eventsummary\"" then
    "event_popup"
  else if strContains low "class=\"calblock\"" || strContains low calblockSq then
    if strContains low "class=\"blockview\"" || strContains low blockviewSq then
      "month_block"
    else "calendar_grid_other"
  else if strContains low "<rss" || strContains low "<feed" || strContains low "op=rss" then
    "feed"
  else if strContains low "calcium web calendar" || strContains low "brownbearsw.com" then
    "calcium_other"
  else "other"

/-- One manifest entry as the partitioner sees it: the path field of the
record (absent when the downloader recorded none), the stored document
(none when no file exists at the path, some content otherwise), and the
Op query parameter of the original URL with the empty default. -/
structure MEntry where
  path : Option String
  file : Option String
  op : String
deriving DecidableEq, Repr

/-- The skip condition of line 35: a falsy path field or a file that does
not exist on disk. -/
def entrySkipped (e : MEntry) : Bool :=
  e.path = none || e.path = some "" || e.file = none

/-- The month bucket condition of line 43: classified month_block and
the Op parameter is ShowIt or ShowMonth. -/
def isMonthRoute (e : MEntry) : Bool :=
  classify_html (e.file.getD "") = "month_block" &&
    (e.op = "ShowIt" || e.op = "ShowMonth")

/-- The popup bucket condition of line 47. -/
def isPopupRoute (e : MEntry) : Bool :=
  classify_html (e.file.getD "") = "event_popup"

/-- The day bucket condition of line 52: Op equals ShowDay and the
document holds a word-bounded CalEvent marker, case insensitively. -/
def isDayRoute (e : MEntry) : Bool :=
  e.op = "ShowDay" &&
    containsWord "calevent".toList (lowerStr (e.file.getD "")).toList

/-- The per-entry routing decision of lines 32 to 56: none when the entry
is skipped, else the name of the single bucket it joins. -/
def route (e : MEntry) : Option String :=
  if entrySkipped e then none
  else if isMonthRoute e then some "month_block"
  else if isPopupRoute e then some "event_popup"
  else if isDayRoute e then some "day_block"
  else some "other"

/-- The partition loop of make_verified_manifests.py: the four bucket
lists in manifest order. -/
def partition : List MEntry → List MEntry × List MEntry × List MEntry × List MEntry
  | [] => ([], [], [], [])
  | e :: rest =>
    let r := partition rest
    if entrySkipped e then r
    else if isMonthRoute e then (e :: r.1, r.2.1, r.2.2.1, r.2.2.2)
    else if isPopupRoute e then (r.1, e :: r.2.1, r.2.2.1, r.2.2.2)
    else if isDayRoute e then (r.1, r.2.1, e :: r.2.2.1, r.2.2.2)
    else (r.1, r.2.1, r.2.2.1, e :: r.2.2.2)

/-!
General lemmas about the sorting and deduplication combinators.
-/

theorem mem_insertBy {α : Type} (le : α → α → Bool) (a x : α) :
    ∀ l : List α, x ∈ insertBy le a l ↔ x = a ∨ x ∈ l := by
  intro l
  induction l with
  | nil => simp [insertBy]
  | cons y ys ih =>
    simp only [insertBy]
    by_cases h : le a y = true
    · simp [h]
    · simp only [if_neg h, List.mem_cons, ih]
      tauto

theorem mem_isortBy {α : Type} (le : α → α → Bool) (x : α) :
    ∀ l : List α, x ∈ isortBy le l ↔ x ∈ l := by
  intro l
  induction l with
  | nil => simp [isortBy]
  | cons y ys ih =>
    simp only [isortBy, mem_insertBy, ih, List.mem_cons]

theorem mem_dedupAux {α κ : Type} [DecidableEq κ] (key : α → κ) (x : α) :
    ∀ (seen : List κ) (l : List α), x ∈ dedupAux key seen l → x ∈ l := by
  intro seen l
  induction l generalizing seen with
  | nil => simp [dedupAux]
  | cons y ys ih =>
    simp only [dedupAux]
    by_cases h : key y ∈ seen
    · intro hx
      exact List.mem_cons_of_mem y (ih seen (by simpa [h] using hx))
    · simp only [if_neg h, List.mem_cons]
      rintro (rfl | hx)
      · exact Or.inl rfl
      · exact Or.inr (ih _ hx)

theorem mem_drop_duplicates {α κ : Type} [DecidableEq κ] (key : α → κ)
    (x : α) (l : List α) : x ∈ drop_duplicates key l → x ∈ l :=
  mem_dedupAux key x [] l

theorem dedupAux_pairwise {α κ : Type} [DecidableEq κ] (key : α → κ) :
    ∀ (seen : List κ) (l : List α),
      (dedupAux key seen l).Pairwise (fun a b => key a ≠ key b) ∧
        ∀ x ∈ dedupAux key seen l, key x ∉ seen := by
  intro seen l
  induction l generalizing seen with
  | nil => simp [dedupAux]
  | cons y ys ih =>
    simp only [dedupAux]
    by_cases h : key y ∈ seen
    · simpa [h] using ih seen
    · simp only [if_neg h]
      obtain ⟨hpw, hmem⟩ := ih (key y :: seen)
      refine ⟨List.Pairwise.cons ?_ hpw, ?_⟩
      · intro b hb
        have := hmem b hb
        simp only [List.mem_cons] at this
        tauto
      · intro x hx
        simp only [List.mem_cons] at hx
        rcases hx with rfl | hx
        · exact h
        · have := hmem x hx
          simp only [List.mem_cons] at this
          tauto

theorem drop_duplicates_pairwise {α κ : Type} [DecidableEq κ] (key : α → κ)
    (l : List α) :
    (drop_duplicates key l).Pairwise (fun a b => key a ≠ key b) :=
  (dedupAux_pairwise key [] l).1

theorem mem_dedupe (r : Row) (rows : List Row) :
    r ∈ dedupe rows → r ∈ rows := by
  intro h
  simp only [dedupe, List.mem_append] at h
  rcases h with h | h
  · have := mem_drop_duplicates _ r _ h
    have := List.mem_filter.mp this
    exact (mem_isortBy rowLe r rows).mp this.1
  · have := mem_drop_duplicates _ r _ h
    have := List.mem_filter.mp this
    exact (mem_isortBy rowLe r rows).mp this.1

theorem extract_row_source (cal : Option String) (st : String) (b : Block)
    (r : Row) : extract_row cal st b = some r → r.source_type = st := by
  unfold extract_row
  rcases block_id_date b with ⟨eid, d⟩
  rcases d with _ | d
  · simp
  · simp only []
    by_cases h : block_title b = ""
    · simp [h]
    · simp only [if_neg h, Option.some_inj]
      intro hr
      rw [← hr]

theorem mem_parse_manifest (r : Row) (st : String) :
    ∀ entries : List MFile, r ∈ parse_manifest entries st →
      r.source_type = st := by
  intro entries
  induction entries with
  | nil => simp [parse_manifest]
  | cons e es ih =>
    simp only [parse_manifest, List.foldr_cons, List.mem_append]
    rintro (h | h)
    · simp only [extract_events, List.mem_filterMap] at h
      obtain ⟨b, _, hb⟩ := h
      exact extract_row_source e.calendar_name st b r hb
    · exact ih h

/-!
Claim theorems.
-/

/-- Claim C6: title canonicalization is a pure function (a Lean def by
construction), and canonical_title applied to the literal Arabic Scool at
Bilal Host John Doe yields arabic school at bilal: lowercased, the clause
from the word host on stripped, punctuation normalized, whitespace
collapsed, and the scool typo fixed by the alias table. -/
theorem claim_C6_canonical_title :
    canonical_title "Arabic Scool at Bilal Host John Doe" =
      "arabic school at bilal" := by decide

/-- The C5 scenario block: the raw record of the end-to-end test, with the
location code c_Masjid, event id 899 and date 2021/5/21 carried by the
noscript link. -/
def c5block : Block :=
  { locClass := some "c_Masjid"
    timeText := some "1:00 PM"
    anchorText := some "Friday Prayer"
    fullText := "Friday Prayer"
    noscriptQs := some [("ID", "899"), ("Date", "2021/5/21")]
    popupCall := none }

/-- The C5 month manifest holding exactly the scenario record. -/
def c5mm : List MFile :=
  [{ calendar_name := some "BilalEvents", blocks := [c5block] }]

/-- The canonical row the C5 scenario must produce. -/
def c5row : Row :=
  { date := "2021-05-21"
    year_month := "2021-05"
    year := "2021"
    calendar_name := some "BilalEvents"
    title := "Friday Prayer"
    title_norm := "friday prayer"
    time_label := some "1:00 PM"
    location_code := some "Masjid"
    event_id := some "899"
    source_type := "month_block" }

/-- The venue booking the C5 scenario must produce. -/
def c5erow : ERow :=
  { date := "2021-05-21"
    year_int := 2021
    year_month := "2021-05"
    title_canonical := "friday prayer"
    location_code := "Masjid"
    time_label := "1:00 PM"
    event_key := "2021-05-21||friday prayer||1:00 pm" }

/-- Claim C5: on the single raw record with date 2021-05-21, title Friday
Prayer, time label 1:00 PM, location code c_Masjid, event id 899 from a
month_block source, the pipeline produces exactly one canonical row, its
location code is Masjid with the c_ prefix stripped, and the analytics
stage produces exactly one VenueBooking with key
2021-05-21||friday prayer||1:00 pm and venue Masjid. -/
theorem claim_C5_end_to_end :
    rebuild c5mm [] = [c5row] ∧
    venue_bookings ((rebuild c5mm []).map toCsvRow) = [c5erow] := by decide

/-- The C10 scenario block: a record whose raw date is the impossible
2021/13/45. -/
def c10block : Block :=
  { locClass := some "Masjid"
    timeText := some "3:00 PM"
    anchorText := some "Test Event"
    fullText := "Test Event"
    noscriptQs := some [("ID", "1"), ("Date", "2021/13/45")]
    popupCall := none }

/-- The C10 month manifest holding exactly the scenario record. -/
def c10mm : List MFile :=
  [{ calendar_name := some "BilalEvents", blocks := [c10block] }]

/-- The canonical row the C10 scenario produces: the impossible date is
accepted verbatim. -/
def c10row : Row :=
  { date := "2021-13-45"
    year_month := "2021-13"
    year := "2021"
    calendar_name := some "BilalEvents"
    title := "Test Event"
    title_norm := "test event"
    time_label := some "3:00 PM"
    location_code := some "Masjid"
    event_id := some "1"
    source_type := "month_block" }

/-- The unique analytics event of the C10 scenario: the impossible date
reaches the identity key. -/
def c10erow : ERow :=
  { date := "2021-13-45"
    year_int := 2021
    year_month := "2021-13"
    title_canonical := "test event"
    location_code := "Masjid"
    time_label := "3:00 PM"
    event_key := "2021-13-45||test event||3:00 pm" }

/-- Claim C10: whenever the input has at least three slash separated
components and the first three convert as integers, parse_date_str
returns their zero padded join with no calendar range validation, and a
record carrying the impossible date 2021/13/45 flows into the canonical
table date field and the analytics identity key instead of being treated
as unparseable. -/
theorem claim_C10_no_range_validation (d : String) (p1 p2 p3 : List Char)
    (rest : List (List Char)) (a b c : Int)
    (hsplit : splitChar '/' d.toList = p1 :: p2 :: p3 :: rest)
    (h1 : pyInt p1 = some a) (h2 : pyInt p2 = some b)
    (h3 : pyInt p3 = some c) :
    parse_date_str d = some (fmtZ 4 a ++ "-" ++ fmtZ 2 b ++ "-" ++ fmtZ 2 c) ∧
    rebuild c10mm [] = [c10row] ∧
    events_unique ((rebuild c10mm []).map toCsvRow) = [c10erow] := by
  refine ⟨?_, by decide, by decide⟩
  unfold parse_date_str
  rw [hsplit]
  simp [h1, h2, h3]

/-- Witness for C10 at the concrete input 2021/13/45. -/
theorem claim_C10_witness :
    parse_date_str "2021/13/45" = some "2021-13-45" ∧
    rebuild c10mm [] = [c10row] ∧
    events_unique ((rebuild c10mm []).map toCsvRow) = [c10erow] :=
  claim_C10_no_range_validation "2021/13/45"
    ['2', '0', '2', '1'] ['1', '3'] ['4', '5'] [] 2021 13 45
    (by decide) (by decide) (by decide) (by decide)

/-- Claim C2: whenever a month_block record of the organization calendar
exists for a (year, month), no day_block record for the same (year,
month) appears in the canonical table; day rows survive the coverage
gate only for months absent from the month frame. -/
theorem claim_C2_coverage_gate (mm dm : List MFile) (r m : Row)
    (hr : r ∈ rebuild mm dm) (hday : r.source_type = "day_block")
    (hm : m ∈ df_month_of mm) :
    m.year_month ≠ r.year_month := by
  have hr2 := mem_dedupe r _ hr
  rcases List.mem_append.mp hr2 with h | h
  · have hsrc : r.source_type = "month_block" :=
      mem_parse_manifest r _ mm (List.mem_filter.mp h).1
    rw [hsrc] at hday
    exact absurd hday (by decide)
  · have hf := List.mem_filter.mp h
    have hnot := hf.2
    intro heq
    have hmem : r.year_month ∈ month_months mm := by
      rw [← heq]
      exact List.mem_map_of_mem (fun r => r.year_month) hm
    simp [hmem] at hnot

/-- The C2 witness month manifest: one May 2021 record. -/
def c2mm : List MFile :=
  [{ calendar_name := some "BilalEvents"
     blocks := [{ locClass := none
                  timeText := none
                  anchorText := some "May Event"
                  fullText := "May Event"
                  noscriptQs := some [("ID", "10"), ("Date", "2021/5/2")]
                  popupCall := none }] }]

/-- The C2 witness day manifest: one June 2021 record, a month absent
from the month frame, so the gate lets it through. -/
def c2dm : List MFile :=
  [{ calendar_name := some "BilalEvents"
     blocks := [{ locClass := some "Gym"
                  timeText := some "2:00 PM"
                  anchorText := some "June Event"
                  fullText := "June Event"
                  noscriptQs := some [("ID", "11"), ("Date", "2021/6/3")]
                  popupCall := none }] }]

/-- The day row the C2 witness produces. -/
def c2dayrow : Row :=
  { date := "2021-06-03"
    year_month := "2021-06"
    year := "2021"
    calendar_name := some "BilalEvents"
    title := "June Event"
    title_norm := "june event"
    time_label := some "2:00 PM"
    location_code := some "Gym"
    event_id := some "11"
    source_type := "day_block" }

/-- The month row the C2 witness produces. -/
def c2monthrow : Row :=
  { date := "2021-05-02"
    year_month := "2021-05"
    year := "2021"
    calendar_name := some "BilalEvents"
    title := "May Event"
    title_norm := "may event"
    time_label := none
    location_code := none
    event_id := some "10"
    source_type := "month_block" }

/-- Witness for C2: in a concrete run with one month record for May and
one day record for June, the day row is in the canonical table and its
month differs from the covered month. -/
theorem claim_C2_witness :
    c2dayrow ∈ rebuild c2mm c2dm ∧ c2dayrow.source_type = "day_block" ∧
    c2monthrow ∈ df_month_of c2mm ∧
    c2monthrow.year_month ≠ c2dayrow.year_month := by
  have hre : rebuild c2mm c2dm = [c2monthrow, c2dayrow] := by decide
  have hdm : df_month_of c2mm = [c2monthrow] := by decide
  refine ⟨by rw [hre]; simp, by decide, by rw [hdm]; simp, ?_⟩
  exact claim_C2_coverage_gate c2mm c2dm c2dayrow c2monthrow
    (by rw [hre]; simp) (by decide) (by rw [hdm]; simp)

/-- Claim C4: the unique event frame has pairwise distinct event keys,
the venue booking frame has pairwise distinct (event_key, location_code)
pairs, and no venue booking carries the empty location code. -/
theorem claim_C4_uniqueness (input : List CsvRow) :
    (events_unique input).Pairwise (fun a b => a.event_key ≠ b.event_key) ∧
    (venue_bookings input).Pairwise
      (fun a b => (a.event_key, a.location_code) ≠ (b.event_key, b.location_code)) ∧
    ∀ v ∈ venue_bookings input, v.location_code ≠ "" := by
  refine ⟨drop_duplicates_pairwise _ _, drop_duplicates_pairwise _ _, ?_⟩
  intro v hv
  have h1 := mem_drop_duplicates _ v _ hv
  have h2 := (List.mem_filter.mp h1).2
  simpa using h2

/-- The C4 witness input: three CSV rows with a duplicated event and a
duplicated venue pair. -/
def c4input : List CsvRow :=
  [{ date := "2021-05-21", title := "Friday Prayer",
     time_label := some "1:00 PM", location_code := some "Masjid" },
   { date := "2021-05-21", title := "Friday Prayer",
     time_label := some "1:00 PM", location_code := some "Masjid" },
   { date := "2021-05-21", title := "Friday Prayer",
     time_label := some "1:00 PM", location_code := some "Gym" }]

/-- Witness for C4 at a concrete input with duplicates. -/
theorem claim_C4_witness :
    (events_unique c4input).Pairwise (fun a b => a.event_key ≠ b.event_key) ∧
    (venue_bookings c4input).Pairwise
      (fun a b => (a.event_key, a.location_code) ≠ (b.event_key, b.location_code)) ∧
    ∀ v ∈ venue_bookings c4input, v.location_code ≠ "" :=
  claim_C4_uniqueness c4input

/-- A year listed in the yearly groupby has at least one event row. -/
theorem year_count_pos (rows : List ERow) (y : Nat) (hy : y ∈ yearsOf rows) :
    0 < (rows.filter (fun r => r.year_int = y)).length := by
  have h1 := (mem_isortBy natLe y _).mp hy
  have h2 := mem_drop_duplicates (fun z => z) y _ h1
  obtain ⟨r, hr, hry⟩ := List.mem_map.mp h2
  have hmem : r ∈ rows.filter (fun r => r.year_int = y) :=
    List.mem_filter.mpr ⟨hr, by simp [hry]⟩
  exact List.length_pos.mpr (List.ne_nil_of_mem hmem)

/-- Over a column of positive counts the growth computation never hits
the zero-previous TypeError and produces the rounded percent change. -/
theorem growthGo_pos (cs : List ℚ) (hpos : ∀ c ∈ cs, 0 < c) :
    ∀ p : ℚ, 0 < p → growthGo (some p) cs = some (growthExpectedGo p cs) := by
  induction cs with
  | nil => intro p _; rfl
  | cons c cs ih =>
    intro p hp
    have hc : 0 < c := hpos c (List.mem_cons_self c cs)
    have hrest : ∀ x ∈ cs, 0 < x := fun x hx => hpos x (List.mem_cons_of_mem c hx)
    simp only [growthGo, growthExpectedGo, pct_change, if_neg (ne_of_gt hp),
      ih hrest c hc]
    rfl

/-- Positive counts give a defined growth column: null for the first
entry, the rounded formula for the rest. -/
theorem growth_col_of_pos (l : List ℚ) (hpos : ∀ c ∈ l, 0 < c) :
    growth_pct_col l = some (growthExpected l) := by
  cases l with
  | nil => rfl
  | cons c cs =>
    have hc : 0 < c := hpos c (List.mem_cons_self c cs)
    have hrest : ∀ x ∈ cs, 0 < x := fun x hx => hpos x (List.mem_cons_of_mem c hx)
    simp only [growth_pct_col, growthGo, growthExpected, growthGo_pos cs hrest c hc]
    rfl

/-- Claim C9: over the yearly event counts of any analytics input the
growth column is computed without error, its first entry is null, and
every later entry is 100 times (current minus prior) over prior, rounded
to one decimal place.  A year with a zero prior-year count would raise a
TypeError instead of yielding null, but every year present in the
groupby has at least one event, so no such year can occur; the
zero-prior clause of the claim is vacuous over reachable outputs. -/
theorem claim_C9_growth (input : List CsvRow) :
    growth_pct_col ((yearly_event_counts input).map (fun n : Nat => (n : ℚ))) =
      some (growthExpected ((yearly_event_counts input).map (fun n : Nat => (n : ℚ)))) := by
  apply growth_col_of_pos
  intro c hc
  simp only [List.mem_map] at hc
  obtain ⟨n, hn, rfl⟩ := hc
  have hn2 : 0 < n := by
    rw [yearly_event_counts] at hn
    simp only [List.mem_map] at hn
    obtain ⟨y, hy, rfl⟩ := hn
    exact year_count_pos (events_unique input) y hy
  exact_mod_cast hn2

/-- The C9 witness input: two years with different counts. -/
def c9input : List CsvRow :=
  [{ date := "2020-03-01", title := "Event A",
     time_label := some "1:00 PM", location_code := some "Masjid" },
   { date := "2021-03-01", title := "Event A",
     time_label := some "1:00 PM", location_code := some "Masjid" },
   { date := "2021-04-01", title := "Event B",
     time_label := none, location_code := none }]

/-- Witness for C9 at a concrete two-year input. -/
theorem claim_C9_witness :
    growth_pct_col ((yearly_event_counts c9input).map (fun n : Nat => (n : ℚ))) =
      some (growthExpected ((yearly_event_counts c9input).map (fun n : Nat => (n : ℚ)))) :=
  claim_C9_growth c9input

/-- A block whose date does not resolve yields no record. -/
theorem extract_row_dateless (cal : Option String) (st : String) (b : Block)
    (hb : block_date b = none) : extract_row cal st b = none := by
  unfold block_date at hb
  unfold extract_row
  rcases h : block_id_date b with ⟨eid, d⟩
  rw [h] at hb
  simp only at hb
  rw [hb]

/-- Dropping a dateless block from a document leaves its extraction
unchanged elsewhere. -/
theorem extract_events_dateless (cal : Option String) (st : String)
    (b : Block) (xs ys : List Block) (hb : block_date b = none) :
    extract_events cal st (xs ++ b :: ys) = extract_events cal st (xs ++ ys) := by
  simp only [extract_events, List.filterMap_append, List.filterMap_cons,
    extract_row_dateless cal st b hb]

/-- parse_manifest unfolds one entry at a time. -/
theorem parse_manifest_cons (e : MFile) (es : List MFile) (st : String) :
    parse_manifest (e :: es) st =
      extract_events e.calendar_name st e.blocks ++ parse_manifest es st := rfl

/-- Claim C7: a raw record whose date is absent or unparseable never
appears in the canonical table, whatever its other fields hold, and the
rest of the document parses exactly as if the record were not there; the
embedding is a total function, so no error is raised.  Both the month
and the day ingestion path are covered. -/
theorem claim_C7_dateless_dropped (cal : Option String) (b : Block)
    (xs ys : List Block) (mm dm mm2 dm2 : List MFile)
    (hb : block_date b = none) :
    rebuild ({ calendar_name := cal, blocks := xs ++ b :: ys } :: mm) dm =
      rebuild ({ calendar_name := cal, blocks := xs ++ ys } :: mm) dm ∧
    rebuild mm2 ({ calendar_name := cal, blocks := xs ++ b :: ys } :: dm2) =
      rebuild mm2 ({ calendar_name := cal, blocks := xs ++ ys } :: dm2) := by
  have he : ∀ st : String,
      extract_events cal st (xs ++ b :: ys) = extract_events cal st (xs ++ ys) :=
    fun st => extract_events_dateless cal st b xs ys hb
  constructor
  · simp only [rebuild, df_month_of, month_months, df_day_missing_of,
      parse_manifest_cons, he]
  · simp only [rebuild, df_month_of, month_months, df_day_missing_of,
      parse_manifest_cons, he]

/-- The C7 witness block: full title, time and location, but a date that
does not parse. -/
def c7bad : Block :=
  { locClass := some "Masjid"
    timeText := some "4:00 PM"
    anchorText := some "Broken Event"
    fullText := "Broken Event"
    noscriptQs := some [("ID", "77"), ("Date", "notadate")]
    popupCall := none }

/-- The C7 witness companion block with a good date. -/
def c7good : Block :=
  { locClass := none
    timeText := none
    anchorText := some "Good Event"
    fullText := "Good Event"
    noscriptQs := some [("ID", "78"), ("Date", "2022/1/5")]
    popupCall := none }

/-- Witness for C7: inserting the dateless block before a good one
changes nothing on either ingestion path. -/
theorem claim_C7_witness :
    rebuild [{ calendar_name := some "BilalEvents", blocks := [] ++ c7bad :: [c7good] }] [] =
      rebuild [{ calendar_name := some "BilalEvents", blocks := [] ++ [c7good] }] [] ∧
    rebuild [] [{ calendar_name := some "BilalEvents", blocks := [] ++ c7bad :: [c7good] }] =
      rebuild [] [{ calendar_name := some "BilalEvents", blocks := [] ++ [c7good] }] :=
  claim_C7_dateless_dropped (some "BilalEvents") c7bad [] [c7good] [] [] [] []
    (by decide)

/-- Claim C8 (amended): the partitioner skips exactly the entries whose
path field is absent or empty or whose file does not exist on disk (an
existing but empty file is not skipped), and routes every remaining
entry to exactly one of the four buckets: the bucket lists are precisely
the entries whose route is that bucket, and the route of an entry is
none exactly when it is skipped. -/
theorem claim_C8_partition_amended (entries : List MEntry) :
    partition entries =
      (entries.filter (fun e => route e = some "month_block"),
       entries.filter (fun e => route e = some "event_popup"),
       entries.filter (fun e => route e = some "day_block"),
       entries.filter (fun e => route e = some "other")) ∧
    ∀ e : MEntry, (route e = none ↔ entrySkipped e = true) := by
  constructor
  · induction entries with
    | nil => rfl
    | cons e es ih =>
      simp only [partition, List.filter_cons]
      by_cases h0 : entrySkipped e = true
      · have hr : route e = none := by simp [route, h0]
        simp [h0, hr, ih]
      · by_cases h1 : isMonthRoute e = true
        · have hr : route e = some "month_block" := by simp [route, h0, h1]
          simp [h0, h1, hr, ih]
        · by_cases h2 : isPopupRoute e = true
          · have hr : route e = some "event_popup" := by simp [route, h0, h1, h2]
            simp [h0, h1, h2, hr, ih]
          · by_cases h3 : isDayRoute e = true
            · have hr : route e = some "day_block" := by
                simp [route, h0, h1, h2, h3]
              simp [h0, h1, h2, h3, hr, ih]
            · have hr : route e = some "other" := by
                simp [route, h0, h1, h2, h3]
              simp [h0, h1, h2, h3, hr, ih]
  · intro e
    constructor
    · intro h
      by_cases h0 : entrySkipped e = true
      · exact h0
      · exfalso
        simp only [route, if_neg h0] at h
        by_cases h1 : isMonthRoute e = true
        · rw [if_pos h1] at h; exact Option.noConfusion h
        · rw [if_neg h1] at h
          by_cases h2 : isPopupRoute e = true
          · rw [if_pos h2] at h; exact Option.noConfusion h
          · rw [if_neg h2] at h
            by_cases h3 : isDayRoute e = true
            · rw [if_pos h3] at h; exact Option.noConfusion h
            · rw [if_neg h3] at h; exact Option.noConfusion h
    · intro h
      rw [route, if_pos h]

/-- The C8 counterexample entry: its path is present and its file exists
but is empty. -/
def c8empty : MEntry := { path := some "snap.html", file := some "", op := "" }

/-- Counterexample for C8 as stated: an entry whose local file exists
but is empty is not skipped; it is classified and routed to the other
bucket, so it does appear in a bucket. -/
theorem claim_C8_counterexample :
    entrySkipped c8empty = false ∧
    partition [c8empty] = ([], [], [], [c8empty]) := by
  refine ⟨by decide, by decide⟩

/-- The C8 witness month entry: a month grid document reached through a
ShowMonth URL. -/
def c8month : MEntry :=
  { path := some "m.html"
    file := some ("<div class=\"CalBlock\"><div class=\"BlockView\">x</div></div>")
    op := "ShowMonth" }

/-- A manifest entry whose file is absent on disk. -/
def c8missing : MEntry := { path := some "gone.html", file := none, op := "ShowDay" }

/-- Witness for the amended C8 at a concrete manifest. -/
theorem claim_C8_witness :
    partition [c8missing, c8month] =
      ([c8missing, c8month].filter (fun e => route e = some "month_block"),
       [c8missing, c8month].filter (fun e => route e = some "event_popup"),
       [c8missing, c8month].filter (fun e => route e = some "day_block"),
       [c8missing, c8month].filter (fun e => route e = some "other")) ∧
    ∀ e : MEntry, (route e = none ↔ entrySkipped e = true) :=
  claim_C8_partition_amended [c8missing, c8month]

/-- The C3 counterexample month row: event id 899, no location, title
normalizing to zebra event. -/
def c3m : Row :=
  { date := "2021-05-21"
    year_month := "2021-05"
    year := "2021"
    calendar_name := some "BilalEvents"
    title := "Zebra Event"
    title_norm := "zebra event"
    time_label := none
    location_code := none
    event_id := some "899"
    source_type := "month_block" }

/-- The C3 counterexample day row: the same date and event id, a
location, and a title normalizing to apple event, which sorts first. -/
def c3d : Row :=
  { date := "2021-05-21"
    year_month := "2021-05"
    year := "2021"
    calendar_name := some "BilalEvents"
    title := "Apple Event"
    title_norm := "apple event"
    time_label := none
    location_code := some "Masjid"
    event_id := some "899"
    source_type := "day_block" }

/-- Counterexample for C3 as stated: for this pair sharing (date,
event_id), with the month record carrying no location and the day record
carrying one, deduplication keeps the day record, because the sort
orders by normalized title before source rank and the day record's title
sorts first.  Source priority therefore does not outrank everything for
records whose normalized titles differ. -/
theorem claim_C3_counterexample :
    dedupe [c3m, c3d] = [c3d] ∧ dedupe [c3m, c3d] ≠ [c3m] := by
  refine ⟨by decide, by decide⟩

/-- Claim C3 (amended): for two raw records sharing the same (date,
event_id) and the same normalized title, one from month_block without a
location code and one from day_block with one, deduplication keeps the
month_block record whichever order the records arrive in: with date and
title tied, source priority decides, before event_id and location
presence. -/
theorem claim_C3_amended (m d : Row) (i l : String)
    (hdate : m.date = d.date) (htn : m.title_norm = d.title_norm)
    (hms : m.source_type = "month_block") (hds : d.source_type = "day_block")
    (hmi : m.event_id = some i) (hdi : d.event_id = some i)
    (hml : m.location_code = none) (hdl : d.location_code = some l) :
    dedupe [m, d] = [m] ∧ dedupe [d, m] = [m] := by
  have hle1 : rowLe m d = true := by
    simp [rowLe, hdate, htn, source_rank, hms, hds]
  have hle2 : rowLe d m = false := by
    simp [rowLe, hdate, htn, source_rank, hms, hds]
  constructor <;>
    simp [dedupe, isortBy, insertBy, hle1, hle2, drop_duplicates, dedupAux,
      hmi, hdi, hdate, htn]

/-- The C3 witness month row with the shared normalized title. -/
def c3wm : Row :=
  { date := "2021-05-21"
    year_month := "2021-05"
    year := "2021"
    calendar_name := some "BilalEvents"
    title := "Friday Prayer"
    title_norm := "friday prayer"
    time_label := none
    location_code := none
    event_id := some "899"
    source_type := "month_block" }

/-- The C3 witness day row: same date, event id and normalized title,
with a location code. -/
def c3wd : Row :=
  { date := "2021-05-21"
    year_month := "2021-05"
    year := "2021"
    calendar_name := some "BilalEvents"
    title := "Friday  Prayer"
    title_norm := "friday prayer"
    time_label := some "1:00 PM"
    location_code := some "Masjid"
    event_id := some "899"
    source_type := "day_block" }

/-- Witness for the amended C3 at a concrete pair. -/
theorem claim_C3_witness :
    dedupe [c3wm, c3wd] = [c3wm] ∧ dedupe [c3wd, c3wm] = [c3wm] :=
  claim_C3_amended c3wm c3wd "899" "Masjid" (by decide) (by decide)
    (by decide) (by decide) (by decide) (by decide) (by decide) (by decide)

/-- A single surviving canonical row with a usable venue yields exactly
one venue booking. -/
theorem venue_single (x : Row) (lx : String) (hlx : x.location_code = some lx)
    (hyr : yearOkB (clean x.date) = true)
    (htc : canonical_title (clean x.title) ≠ "")
    (hlc : canonical_loc lx ≠ "") :
    (venue_bookings [toCsvRow x]).length = 1 := by
  simp [venue_bookings, analyticsRows, prepRow, toCsvRow, cellStr, hlx, hyr,
    htc, hlc, drop_duplicates, dedupAux]

/-- Claim C1 (amended): two raw records with no event_id, the same date
and normalized title, and different non-empty location codes collapse to
exactly one canonical event, and because the analytics stage reads only
the deduplicated table, the venue-booking derivation produces exactly
one VenueBooking for that event, the surviving record's venue, not one
per distinct venue code.  The well-formedness hypotheses (a four digit
year, titles and venues that survive canonicalization) are those the
scenario needs to produce any booking at all. -/
theorem claim_C1_amended (a b : Row) (la lb : String)
    (ha : a.event_id = none) (hb : b.event_id = none)
    (hdate : a.date = b.date) (htn : a.title_norm = b.title_norm)
    (hla : a.location_code = some la) (hlb : b.location_code = some lb)
    (hll : la ≠ lb) (hla0 : la ≠ "") (hlb0 : lb ≠ "")
    (hyr : yearOkB (clean a.date) = true)
    (htca : canonical_title (clean a.title) ≠ "")
    (htcb : canonical_title (clean b.title) ≠ "")
    (hlca : canonical_loc la ≠ "") (hlcb : canonical_loc lb ≠ "") :
    (dedupe [a, b]).length = 1 ∧
    (venue_bookings ((dedupe [a, b]).map toCsvRow)).length = 1 := by
  by_cases hord : rowLe a b = true
  · have hd : dedupe [a, b] = [a] := by
      simp [dedupe, isortBy, insertBy, hord, drop_duplicates, dedupAux,
        ha, hb, hdate, htn]
    rw [hd]
    exact ⟨rfl, venue_single a la hla hyr htca hlca⟩
  · have hd : dedupe [a, b] = [b] := by
      simp [dedupe, isortBy, insertBy, hord, drop_duplicates, dedupAux,
        ha, hb, hdate, htn]
    rw [hd]
    refine ⟨rfl, venue_single b lb hlb ?_ htcb hlcb⟩
    rw [← hdate]
    exact hyr

/-- The C1 example rows: same date and normalized title, no event ids,
venues Masjid and Gym. -/
def c1a : Row :=
  { date := "2021-05-21"
    year_month := "2021-05"
    year := "2021"
    calendar_name := some "BilalEvents"
    title := "Quran Class"
    title_norm := "quran class"
    time_label := some "5:00 PM"
    location_code := some "Masjid"
    event_id := none
    source_type := "month_block" }

/-- The second C1 example row, identical except for the venue. -/
def c1b : Row :=
  { date := "2021-05-21"
    year_month := "2021-05"
    year := "2021"
    calendar_name := some "BilalEvents"
    title := "Quran Class"
    title_norm := "quran class"
    time_label := some "5:00 PM"
    location_code := some "Gym"
    event_id := none
    source_type := "month_block" }

/-- Counterexample for C1 as stated: the two records collapse to one
canonical event carrying only the first venue, and the venue-booking
derivation then produces one booking, not two: the second venue was
discarded by the reconciler before the analytics stage could see it. -/
theorem claim_C1_counterexample :
    dedupe [c1a, c1b] = [c1a] ∧
    (venue_bookings ((dedupe [c1a, c1b]).map toCsvRow)).length = 1 ∧
    (venue_bookings ((dedupe [c1a, c1b]).map toCsvRow)).length ≠ 2 := by
  refine ⟨by decide, by decide, by decide⟩

/-- Witness for the amended C1 at the concrete pair. -/
theorem claim_C1_witness :
    (dedupe [c1a, c1b]).length = 1 ∧
    (venue_bookings ((dedupe [c1a, c1b]).map toCsvRow)).length = 1 :=
  claim_C1_amended c1a c1b "Masjid" "Gym" (by decide) (by decide) (by decide)
    (by decide) (by decide) (by decide) (by decide) (by decide) (by decide)
    (by decide) (by decide) (by decide) (by decide) (by decide)
